import Mathlib

/-!
Verification of the Revhub science-eq endpoint
(src/Revhub/functions/api/science-eq.js), a Cloudflare Pages function that
validates a POST body against a fixed subject/topic allow-list, calls a chat
completion provider for one of two actions (generate / grade), and returns a
CORS-annotated JSON response.

Shallow embedding conventions:
* JSON values are the inductive `JValue`; JavaScript truthiness is `jsTruthy`.
* `JSON.parse` and `new URL` are platform builtins, so a parse oracle
  (`parseJSON : String → Option JValue`, `parseURL : String → Option URLParts`)
  is passed as a parameter; `none` models a thrown parse error.
* The provider reply (the `fetch` result) is abstracted to `ProviderReply`:
  `ok`/`status` from the HTTP response, and `content` the extracted
  `data?.choices?.[0]?.message?.content` string (`none` models an absent chain,
  which the source turns into the empty string via `|| ''`). Per the provider
  contract the content is a JSON-encoded string.
* Thrown JS errors are `Except.error` with the error's message; the top-level
  `try/catch` of `onRequestPost` is the `Except` case split on the dispatched
  call, while the handler itself returns `Except String HttpResponseT`, whose
  `.error` models an exception that escapes the handler (the allow-list access
  on line 166 sits outside the try/catch and can throw an uncaught TypeError
  for subjects naming an Object.prototype member).
* JSON numbers are modelled as `Int` (the grading score is an integer 0-8).
-/

namespace Revhub

/-- A JSON value, the result of a successful JSON.parse. -/
inductive JValue where
  | null : JValue
  | bool : Bool → JValue
  | num : Int → JValue
  | str : String → JValue
  | arr : List JValue → JValue
  | obj : List (String × JValue) → JValue

/-- JavaScript truthiness of a JSON value: null, false, 0 and the empty
string are falsy; every array and object is truthy. -/
def jsTruthy : JValue → Bool
  | .null => false
  | .bool b => b
  | .num n => n != 0
  | .str s => s != ""
  | .arr _ => true
  | .obj _ => true

/-- Property access `v.k` / `v?.k`: field lookup on an object, undefined
(`none`) on every other value. -/
def JValue.get : JValue → String → Option JValue
  | .obj fields, k => fields.lookup k
  | _, _ => none

/-- Truthiness of a possibly-undefined value: `undefined` is falsy. -/
def jsTruthyOpt : Option JValue → Bool
  | none => false
  | some v => jsTruthy v

/-- The JS idiom `x || ''`: keep `x` when truthy, else the empty string. -/
def jsOrEmptyStr : Option JValue → JValue
  | none => .str ""
  | some v => if jsTruthy v then v else .str ""

mutual

/-- JS ToString, as used by property-key coercion `ALLOWED[subject]`: strings
unchanged, numbers and booleans printed, null is "null", arrays comma-join
their elements (null elements become empty), plain objects print as
"[object Object]". -/
def jsToPropKey : JValue → String
  | .null => "null"
  | .bool b => if b then "true" else "false"
  | .num n => toString n
  | .str s => s
  | .obj _ => "[object Object]"
  | .arr xs => jsJoinArr xs
termination_by structural v => v

/-- Array.prototype.join(',') over the elements, null elements rendered
empty. -/
def jsJoinArr : List JValue → String
  | [] => ""
  | [.null] => ""
  | [v] => jsToPropKey v
  | .null :: rest => "," ++ jsJoinArr rest
  | v :: rest => jsToPropKey v ++ "," ++ jsJoinArr rest
termination_by structural xs => xs

end

/-- The WhiteSpace and LineTerminator code points stripped by
String.prototype.trim (ECMA-262): TAB, LF, VT, FF, CR, SP, NBSP, OGHAM SPACE
MARK, the U+2000-200A spaces, LINE and PARAGRAPH SEPARATOR, NARROW NBSP,
MATHEMATICAL SPACE, IDEOGRAPHIC SPACE and ZWNBSP. -/
def jsWhitespace (c : Char) : Bool :=
  c.toNat = 0x09 || c.toNat = 0x0A || c.toNat = 0x0B || c.toNat = 0x0C ||
  c.toNat = 0x0D || c.toNat = 0x20 || c.toNat = 0xA0 || c.toNat = 0x1680 ||
  (0x2000 ≤ c.toNat && c.toNat ≤ 0x200A) ||
  c.toNat = 0x2028 || c.toNat = 0x2029 || c.toNat = 0x202F ||
  c.toNat = 0x205F || c.toNat = 0x3000 || c.toNat = 0xFEFF

/-- String.prototype.trim: drop leading and trailing JS whitespace. -/
def jsTrim (s : String) : String :=
  String.mk (((s.data.dropWhile jsWhitespace).reverse.dropWhile
    jsWhitespace).reverse)

/-- JS strict equality `v === s` of a possibly-undefined value against a
string literal, as in the action dispatch. -/
def jsStrictEqStr (v : Option JValue) (s : String) : Bool :=
  match v with
  | some (.str a) => a == s
  | _ => false

/-- The fixed subject → topics allow-list (source lines 4-8). -/
def ALLOWED : List (String × List String) :=
  [("Physics", ["Electricity", "Forces & Motion"]),
   ("Chemistry", ["Acids & Bases", "Atomic Structure"]),
   ("Biology", ["Genetics", "Human Body (3 Main Systems)"])]

/-- `ALLOWED[subject].includes(topic)`: Array.prototype.includes compares with
SameValueZero, so a non-string topic never matches a string element. -/
def includesJS (topics : List String) (topic : Option JValue) : Bool :=
  match topic with
  | some (.str t) => topics.contains t
  | _ => false

/-- The property keys a plain object literal inherits from Object.prototype
(ECMA-262, Annex B accessors included).  A property access `ALLOWED[key]` with
one of these keys does not yield undefined: it finds the inherited member
(a function, or Object.prototype itself for the proto accessor), which is
truthy and has no `includes` method. -/
def objectPrototypeKeys : List String :=
  ["constructor", "hasOwnProperty", "isPrototypeOf", "propertyIsEnumerable",
   "toLocaleString", "toString", "valueOf", "__proto__",
   "__defineGetter__", "__defineSetter__", "__lookupGetter__",
   "__lookupSetter__"]

/-- The components of a parsed URL that `getCorsOrigin` reads; `protocol`
carries the trailing colon as in the URL API ("https:"), `port` is the empty
string when the URL has no explicit port. -/
structure URLParts where
  protocol : String
  hostname : String
  port : String

/-- Source line 23: reduce a parsed URL to scheme://host[:port]. -/
def urlBase (u : URLParts) : String :=
  u.protocol ++ "//" ++ u.hostname ++ (if u.port != "" then ":" ++ u.port else "")

/-- The fixed CORS origin allow-set (source lines 12-20). -/
def corsAllowedOrigins : List String :=
  ["https://artinamr.xyz",
   "http://localhost",
   "http://localhost:3000",
   "http://127.0.0.1:3000",
   "http://127.0.0.1:5500",
   "http://127.0.0.1:8788",
   "http://localhost:8788"]

/-- The inbound request, reduced to what the handler reads: the Origin header
(`none` models an absent header, i.e. `headers.get` returning null) and the
outcome of `await request.json()` (`none` models a body that fails to parse). -/
structure RequestT where
  originHeader : Option String
  body : Option JValue

/-- The execution environment: `none` models an absent OPENAI_API_KEY. -/
structure EnvT where
  OPENAI_API_KEY : Option String

/-- Truthiness of a possibly-absent string (the `!env.OPENAI_API_KEY` check):
absent and empty are falsy. -/
def jsTruthyStrOpt : Option String → Bool
  | none => false
  | some s => s != ""

/-- The provider `fetch` result: HTTP success flag and status, and the
extracted `data?.choices?.[0]?.message?.content` string (`none` when the chain
yields undefined, turned into "" by the source's `|| ''`). -/
structure ProviderReply where
  ok : Bool
  status : Nat
  content : Option String

/-- A response as the claims observe it: HTTP status, JSON body (`none` for
the body-less 204 preflight reply), and the Access-Control-Allow-Origin header
value when set. -/
structure HttpResponseT where
  status : Nat
  body : Option JValue
  allowOrigin : Option String

/-- Source lines 30-39: build a JSON response; the CORS headers are set only
when `origin` is truthy (a non-empty string). -/
def jsonResponse (data : JValue) (status : Nat) (origin : String) : HttpResponseT :=
  { status := status
    body := some data
    allowOrigin := if origin != "" then some origin else none }

/-- Source lines 10-28: resolve the CORS origin from the Origin header.  An
absent header becomes "" (which `new URL` rejects); a parsed origin is reduced
to scheme://host[:port] and echoed back iff it is in the allow-set, with
https://artinamr.xyz as the fallback in every other case. -/
def getCorsOrigin (parseURL : String → Option URLParts) (request : RequestT) : String :=
  let origin := request.originHeader.getD ""
  match parseURL origin with
  | some u =>
    let base := urlBase u
    if corsAllowedOrigins.contains base then base else "https://artinamr.xyz"
  | none => "https://artinamr.xyz"

/-- Source lines 41-79 (`generateQuestion`), with the prompt construction
elided (it does not influence the returned value) and the provider reply
abstracted: non-success status throws "OpenAI error (status)"; the content is
parsed as JSON with a fallback object treating the trimmed raw text as the
question; a falsy (absent or empty) question throws. -/
def generateQuestion (parseJSON : String → Option JValue)
    (reply : ProviderReply) : Except String JValue :=
  if reply.ok = false then
    .error ("OpenAI error (" ++ toString reply.status ++ ")")
  else
    let content := reply.content.getD ""
    let parsed : JValue :=
      match parseJSON content with
      | some v => v
      | none => .obj [("question", .str (jsTrim content))]
    if jsTruthyOpt (parsed.get "question") = false then
      .error "No question returned from model."
    else
      .ok (.obj [("question", (parsed.get "question").getD .null)])

/-- Source lines 81-135 (`gradeAnswer`), prompt construction elided as above:
non-success status throws "OpenAI error (status)"; a content that fails to
parse throws "Failed to parse grading JSON." (no fallback); a falsy grade_band
or an undefined score throws "Incomplete grading response."; otherwise the
four-field object is returned with feedback and improved_answer defaulted to
"" via `|| ''`. -/
def gradeAnswer (parseJSON : String → Option JValue)
    (reply : ProviderReply) : Except String JValue :=
  if reply.ok = false then
    .error ("OpenAI error (" ++ toString reply.status ++ ")")
  else
    let content := reply.content.getD ""
    match parseJSON content with
    | none => .error "Failed to parse grading JSON."
    | some parsed =>
      if jsTruthyOpt (parsed.get "grade_band") = false || (parsed.get "score").isNone then
        .error "Incomplete grading response."
      else
        .ok (.obj
          [("grade_band", (parsed.get "grade_band").getD .null),
           ("score", (parsed.get "score").getD .null),
           ("feedback", jsOrEmptyStr (parsed.get "feedback")),
           ("improved_answer", jsOrEmptyStr (parsed.get "improved_answer"))])

/-- Source lines 137-147 (`onRequestOptions`): 204, empty body, CORS origin. -/
def onRequestOptions (parseURL : String → Option URLParts)
    (request : RequestT) : HttpResponseT :=
  { status := 204, body := none, allowOrigin := some (getCorsOrigin parseURL request) }

/-- The JS `e.message || 'Internal error.'` of the top-level catch. -/
def catchMessage (msg : String) : String :=
  if msg = "" then "Internal error." else msg

/-- Source lines 149-187 (`onRequestPost`): credential check, body parse,
required-field and allow-list validation, then dispatch on the action with the
top-level catch turning a thrown message into a 500 error body.  The result is
`Except.ok` of the produced response; `Except.error` models an exception that
escapes the handler, which happens exactly when the allow-list access
`ALLOWED[subject]` (line 166, outside the try/catch) resolves through the
prototype chain: for a subject naming an Object.prototype member the access is
truthy, so the short-circuit proceeds to call `.includes` on a value that has
none, throwing an uncaught TypeError.  The single provider reply parameter
stands for the one outbound call the chosen branch would make; branches that
return before dispatch do not inspect it, which is how "no provider call is
made" is expressed (the result is independent of `reply`). -/
def onRequestPost (parseJSON : String → Option JValue)
    (parseURL : String → Option URLParts)
    (request : RequestT) (env : EnvT) (reply : ProviderReply) :
    Except String HttpResponseT :=
  let origin := getCorsOrigin parseURL request
  if jsTruthyStrOpt env.OPENAI_API_KEY = false then
    .ok (jsonResponse (.obj [("error", .str "Server not configured: OPENAI_API_KEY missing.")]) 500 origin)
  else
    match request.body with
    | none => .ok (jsonResponse (.obj [("error", .str "Invalid JSON body.")]) 400 origin)
    | some rawBody =>
      let body := if jsTruthy rawBody then rawBody else .obj []
      let action := body.get "action"
      let subject := body.get "subject"
      let topic := body.get "topic"
      if (!jsTruthyOpt action || !jsTruthyOpt subject || !jsTruthyOpt topic) = true then
        .ok (jsonResponse (.obj [("error", .str "Missing required fields: action, subject, topic.")]) 400 origin)
      else
        match ALLOWED.lookup (jsToPropKey (subject.getD .null)) with
        | none =>
          if objectPrototypeKeys.contains (jsToPropKey (subject.getD .null)) then
            .error "TypeError: ALLOWED[subject].includes is not a function"
          else
            .ok (jsonResponse (.obj [("error", .str "Invalid subject/topic selection.")]) 400 origin)
        | some topics =>
          if includesJS topics topic = false then
            .ok (jsonResponse (.obj [("error", .str "Invalid subject/topic selection.")]) 400 origin)
          else
            if jsStrictEqStr action "generate" = true then
              .ok (match generateQuestion parseJSON reply with
                   | .ok result => jsonResponse result 200 origin
                   | .error msg =>
                     jsonResponse (.obj [("error", .str (catchMessage msg))]) 500 origin)
            else if jsStrictEqStr action "grade" = true then
              let question := body.get "question"
              let answer := body.get "answer"
              if (!jsTruthyOpt question || !jsTruthyOpt answer) = true then
                .ok (jsonResponse (.obj [("error", .str "Missing question or answer for grading.")]) 400 origin)
              else
                .ok (match gradeAnswer parseJSON reply with
                     | .ok result => jsonResponse result 200 origin
                     | .error msg =>
                       jsonResponse (.obj [("error", .str (catchMessage msg))]) 500 origin)
            else
              .ok (jsonResponse (.obj [("error", .str "Unknown action.")]) 400 origin)

/-! ## Helper lemmas -/

/-- A value with a retrievable field is an object, hence truthy. -/
lemma jsTruthy_of_get {b : JValue} {k : String} {v : JValue}
    (h : b.get k = some v) : jsTruthy b = true := by
  cases b <;> simp [JValue.get, jsTruthy] at h ⊢

/-- Truthiness of a present non-empty string field. -/
lemma jsTruthyOpt_some_str (s : String) (h : s ≠ "") :
    jsTruthyOpt (some (.str s)) = true := by
  simp [jsTruthyOpt, jsTruthy, bne_iff_ne, h]

/-- Property-key coercion leaves strings unchanged. -/
lemma jsToPropKey_str (s : String) : jsToPropKey (.str s) = s := rfl

/-- The resolved CORS origin is never the empty string. -/
lemma getCorsOrigin_ne_empty (pu : String → Option URLParts) (req : RequestT) :
    getCorsOrigin pu req ≠ "" := by
  unfold getCorsOrigin
  cases hp : pu (req.originHeader.getD "") with
  | none => simp [hp]
  | some u =>
    simp only [hp]
    split
    · next hc =>
      intro h0
      rw [h0] at hc
      exact absurd hc (by decide)
    · simp

/-- Handler reduction for a configured environment and a validated generate
request: the response is determined by the outcome of `generateQuestion`. -/
lemma onRequestPost_generate_eq
    (pj : String → Option JValue) (pu : String → Option URLParts)
    (req : RequestT) (env : EnvT) (reply : ProviderReply)
    (body : JValue) (s t : String) (ts : List String)
    (hkey : jsTruthyStrOpt env.OPENAI_API_KEY = true)
    (hbody : req.body = some body)
    (ha : body.get "action" = some (.str "generate"))
    (hs : body.get "subject" = some (.str s)) (hs0 : s ≠ "")
    (ht : body.get "topic" = some (.str t)) (ht0 : t ≠ "")
    (hsub : ALLOWED.lookup s = some ts) (htop : ts.contains t = true) :
    onRequestPost pj pu req env reply =
      .ok (match generateQuestion pj reply with
           | .ok result => jsonResponse result 200 (getCorsOrigin pu req)
           | .error msg =>
               jsonResponse (.obj [("error", .str (catchMessage msg))]) 500
                 (getCorsOrigin pu req)) := by
  have hb : jsTruthy body = true := jsTruthy_of_get ha
  unfold onRequestPost
  simp only [hkey, hbody, hb, if_true, ha, hs, ht,
    jsTruthyOpt_some_str s hs0, jsTruthyOpt_some_str t ht0,
    Option.getD_some, jsToPropKey_str, hsub, includesJS, htop, jsStrictEqStr]
  simp [jsTruthyOpt, jsTruthy]

/-- Handler reduction for a configured environment and a validated grade
request with truthy question and answer: the response is determined by the
outcome of `gradeAnswer`. -/
lemma onRequestPost_grade_eq
    (pj : String → Option JValue) (pu : String → Option URLParts)
    (req : RequestT) (env : EnvT) (reply : ProviderReply)
    (body : JValue) (s t : String) (ts : List String) (q a : JValue)
    (hkey : jsTruthyStrOpt env.OPENAI_API_KEY = true)
    (hbody : req.body = some body)
    (ha : body.get "action" = some (.str "grade"))
    (hs : body.get "subject" = some (.str s)) (hs0 : s ≠ "")
    (ht : body.get "topic" = some (.str t)) (ht0 : t ≠ "")
    (hsub : ALLOWED.lookup s = some ts) (htop : ts.contains t = true)
    (hq : body.get "question" = some q) (hqt : jsTruthy q = true)
    (hans : body.get "answer" = some a) (hat : jsTruthy a = true) :
    onRequestPost pj pu req env reply =
      .ok (match gradeAnswer pj reply with
           | .ok result => jsonResponse result 200 (getCorsOrigin pu req)
           | .error msg =>
               jsonResponse (.obj [("error", .str (catchMessage msg))]) 500
                 (getCorsOrigin pu req)) := by
  have hb : jsTruthy body = true := jsTruthy_of_get ha
  unfold onRequestPost
  simp only [hkey, hbody, hb, if_true, ha, hs, ht,
    jsTruthyOpt_some_str s hs0, jsTruthyOpt_some_str t ht0,
    Option.getD_some, jsToPropKey_str, hsub, includesJS, htop, jsStrictEqStr,
    hq, hans]
  simp only [jsTruthyOpt, hqt, hat]
  simp +decide [jsTruthy]

/-- An undefined field is falsy. -/
lemma jsTruthyOpt_none : jsTruthyOpt none = false := rfl

/-- Every response the POST handler produces carries the resolved CORS origin
in its Access-Control-Allow-Origin header. -/
lemma onRequestPost_allowOrigin
    (pj : String → Option JValue) (pu : String → Option URLParts)
    (req : RequestT) (env : EnvT) (reply : ProviderReply) :
    ∀ r, onRequestPost pj pu req env reply = .ok r →
      r.allowOrigin = some (getCorsOrigin pu req) := by
  have h : getCorsOrigin pu req ≠ "" := getCorsOrigin_ne_empty pu req
  have shape : (onRequestPost pj pu req env reply =
        .error "TypeError: ALLOWED[subject].includes is not a function") ∨
      ∃ d n, onRequestPost pj pu req env reply =
        .ok (jsonResponse d n (getCorsOrigin pu req)) := by
    unfold onRequestPost
    simp only []
    repeat' split
    all_goals first
      | exact Or.inl rfl
      | exact Or.inr ⟨_, _, rfl⟩
  intro r hr
  rcases shape with hs | ⟨d, n, hs⟩
  · rw [hr] at hs; cases hs
  · rw [hr] at hs
    injection hs with hs
    subst hs
    simp [jsonResponse, bne_iff_ne, h]

/-! ## Claims -/

/-- C1 counterexample: the body fields "toString" / "Electricity" are
non-empty strings and (toString, Electricity) is not in the allow-list, yet
the handler does not answer 400: the access ALLOWED["toString"] finds the
inherited Object.prototype member, which is truthy and has no includes
method, so line 166 (outside the try/catch) throws an uncaught TypeError and
no response is produced. -/
theorem C1_counterexample_prototype_subject :
    onRequestPost (fun _ => none) (fun _ => none)
      ⟨none, some (.obj [("action", .str "generate"), ("subject", .str "toString"),
                         ("topic", .str "Electricity")])⟩
      ⟨some "key"⟩ ⟨true, 200, some "Q"⟩ =
      .error "TypeError: ALLOWED[subject].includes is not a function" := rfl

/-- C1 (amended): for every POST whose body parses as JSON and carries
non-empty string action, subject and topic, if the (subject, topic) pair is
not in the fixed allow-list and the subject does not name a property that
plain objects inherit from Object.prototype, then the response has status 400
with body error "Invalid subject/topic selection.", and no provider call is
made (the response does not depend on the provider reply); for a subject
naming an inherited Object.prototype property, the allow-list access on line
166 instead throws an uncaught TypeError (see the counterexample). -/
theorem C1_invalid_subject_topic_400
    (pj : String → Option JValue) (pu : String → Option URLParts)
    (req : RequestT) (env : EnvT) (reply reply' : ProviderReply)
    (body : JValue) (act s t : String)
    (hkey : jsTruthyStrOpt env.OPENAI_API_KEY = true)
    (hbody : req.body = some body)
    (ha : body.get "action" = some (.str act)) (ha0 : act ≠ "")
    (hs : body.get "subject" = some (.str s)) (hs0 : s ≠ "")
    (ht : body.get "topic" = some (.str t)) (ht0 : t ≠ "")
    (hpair : ∀ ts, ALLOWED.lookup s = some ts → ts.contains t = false)
    (hproto : objectPrototypeKeys.contains s = false) :
    onRequestPost pj pu req env reply =
      .ok (jsonResponse (.obj [("error", .str "Invalid subject/topic selection.")])
        400 (getCorsOrigin pu req)) ∧
    onRequestPost pj pu req env reply = onRequestPost pj pu req env reply' := by
  have hb : jsTruthy body = true := jsTruthy_of_get ha
  have hproto' : s ∉ objectPrototypeKeys := by simpa using hproto
  have key : ∀ r : ProviderReply, onRequestPost pj pu req env r =
      .ok (jsonResponse (.obj [("error", .str "Invalid subject/topic selection.")])
        400 (getCorsOrigin pu req)) := by
    intro r
    unfold onRequestPost
    cases hl : ALLOWED.lookup s with
    | none =>
      simp [hkey, hbody, hb, ha, hs, ht, jsTruthyOpt_some_str act ha0,
        jsTruthyOpt_some_str s hs0, jsTruthyOpt_some_str t ht0,
        Option.getD_some, jsToPropKey_str, hl, hproto']
    | some ts =>
      have hnot : t ∉ ts := by simpa using hpair ts hl
      simp [hkey, hbody, hb, ha, hs, ht, jsTruthyOpt_some_str act ha0,
        jsTruthyOpt_some_str s hs0, jsTruthyOpt_some_str t ht0,
        Option.getD_some, jsToPropKey_str, hl, includesJS, hnot]
  exact ⟨key reply, (key reply).trans (key reply').symm⟩

/-- Witness for C1 at the concrete pair (Physics, Genetics), which is not in
the allow-list and not a prototype key; the two distinct provider replies show
no provider call is observable. -/
theorem C1_invalid_subject_topic_400_witness :
    onRequestPost (fun _ => none) (fun _ => none)
      ⟨none, some (.obj [("action", .str "generate"), ("subject", .str "Physics"),
                         ("topic", .str "Genetics")])⟩
      ⟨some "key"⟩ ⟨true, 200, some "Q"⟩ =
      .ok (jsonResponse (.obj [("error", .str "Invalid subject/topic selection.")])
        400 "https://artinamr.xyz") ∧
    onRequestPost (fun _ => none) (fun _ => none)
      ⟨none, some (.obj [("action", .str "generate"), ("subject", .str "Physics"),
                         ("topic", .str "Genetics")])⟩
      ⟨some "key"⟩ ⟨true, 200, some "Q"⟩ =
    onRequestPost (fun _ => none) (fun _ => none)
      ⟨none, some (.obj [("action", .str "generate"), ("subject", .str "Physics"),
                         ("topic", .str "Genetics")])⟩
      ⟨some "key"⟩ ⟨false, 503, none⟩ :=
  C1_invalid_subject_topic_400 (fun _ => none) (fun _ => none)
    ⟨none, some (.obj [("action", .str "generate"), ("subject", .str "Physics"),
                       ("topic", .str "Genetics")])⟩
    ⟨some "key"⟩ ⟨true, 200, some "Q"⟩ ⟨false, 503, none⟩
    (.obj [("action", .str "generate"), ("subject", .str "Physics"),
           ("topic", .str "Genetics")])
    "generate" "Physics" "Genetics"
    rfl rfl rfl (by decide) rfl (by decide) rfl (by decide)
    (by intro ts h; cases h; decide) (by decide)

/-- C2 counterexample: a valid generate request whose provider reply is an
HTTP success with content "" (which JSON.parse rejects) does not produce the
claimed 200 with the trimmed content as question; it produces 500 with
error "No question returned from model.". -/
theorem C2_counterexample_empty_content :
    onRequestPost (fun _ => none) (fun _ => none)
      ⟨none, some (.obj [("action", .str "generate"), ("subject", .str "Physics"),
                         ("topic", .str "Electricity")])⟩
      ⟨some "key"⟩ ⟨true, 200, some ""⟩ =
      .ok (jsonResponse (.obj [("error", .str "No question returned from model.")])
        500 "https://artinamr.xyz") := rfl

/-- C2 (amended): for every generate request with a valid subject/topic, if
the provider replies with HTTP success but its message content is not
parseable as JSON, and the trimmed content is non-empty, the endpoint falls
back to treating the raw trimmed content text as the question and returns 200
with that question (an empty trimmed content instead trips the falsy-question
guard, see the counterexample). -/
theorem C2_generate_fallback_200
    (pj : String → Option JValue) (pu : String → Option URLParts)
    (req : RequestT) (env : EnvT) (reply : ProviderReply)
    (body : JValue) (s t : String) (ts : List String) (content : String)
    (hkey : jsTruthyStrOpt env.OPENAI_API_KEY = true)
    (hbody : req.body = some body)
    (ha : body.get "action" = some (.str "generate"))
    (hs : body.get "subject" = some (.str s)) (hs0 : s ≠ "")
    (ht : body.get "topic" = some (.str t)) (ht0 : t ≠ "")
    (hsub : ALLOWED.lookup s = some ts) (htop : ts.contains t = true)
    (hok : reply.ok = true)
    (hcontent : reply.content.getD "" = content)
    (hparse : pj content = none)
    (htrim : jsTrim content ≠ "") :
    onRequestPost pj pu req env reply =
      .ok (jsonResponse (.obj [("question", .str (jsTrim content))]) 200
        (getCorsOrigin pu req)) := by
  have hgen : generateQuestion pj reply =
      .ok (.obj [("question", .str (jsTrim content))]) := by
    unfold generateQuestion
    simp [hok, hcontent, hparse, JValue.get, jsTruthyOpt, jsTruthy,
      bne_iff_ne, htrim]
  have e := onRequestPost_generate_eq pj pu req env reply body s t ts hkey
    hbody ha hs hs0 ht ht0 hsub htop
  rw [hgen] at e
  exact e

/-- Witness for C2 at the concrete content "What is voltage?" (not JSON):
the response is 200 with that text as the question. -/
theorem C2_generate_fallback_200_witness :
    onRequestPost (fun _ => none) (fun _ => none)
      ⟨none, some (.obj [("action", .str "generate"), ("subject", .str "Physics"),
                         ("topic", .str "Electricity")])⟩
      ⟨some "key"⟩ ⟨true, 200, some "What is voltage?"⟩ =
      .ok (jsonResponse (.obj [("question", .str "What is voltage?")]) 200
        "https://artinamr.xyz") :=
  C2_generate_fallback_200 (fun _ => none) (fun _ => none)
    ⟨none, some (.obj [("action", .str "generate"), ("subject", .str "Physics"),
                       ("topic", .str "Electricity")])⟩
    ⟨some "key"⟩ ⟨true, 200, some "What is voltage?"⟩
    (.obj [("action", .str "generate"), ("subject", .str "Physics"),
           ("topic", .str "Electricity")])
    "Physics" "Electricity" ["Electricity", "Forces & Motion"]
    "What is voltage?"
    rfl rfl rfl rfl (by decide) rfl (by decide) rfl rfl rfl rfl rfl
    (by decide)

/-- C3: for every grade request with a valid subject/topic, question and
answer, if the provider replies with HTTP success but its message content is
not parseable as JSON, the endpoint returns 500 with
error "Failed to parse grading JSON."; the last conjunct shows that the
generate path, on the same parse-failing reply, falls back instead of
failing (for any non-empty trimmed content). -/
theorem C3_grade_parse_failure_500
    (pj : String → Option JValue) (pu : String → Option URLParts)
    (req : RequestT) (env : EnvT) (reply : ProviderReply)
    (body : JValue) (s t : String) (ts : List String) (q a : JValue)
    (content : String)
    (hkey : jsTruthyStrOpt env.OPENAI_API_KEY = true)
    (hbody : req.body = some body)
    (ha : body.get "action" = some (.str "grade"))
    (hs : body.get "subject" = some (.str s)) (hs0 : s ≠ "")
    (ht : body.get "topic" = some (.str t)) (ht0 : t ≠ "")
    (hsub : ALLOWED.lookup s = some ts) (htop : ts.contains t = true)
    (hq : body.get "question" = some q) (hqt : jsTruthy q = true)
    (hans : body.get "answer" = some a) (hat : jsTruthy a = true)
    (hok : reply.ok = true)
    (hcontent : reply.content.getD "" = content)
    (hparse : pj content = none) :
    onRequestPost pj pu req env reply =
      .ok (jsonResponse (.obj [("error", .str "Failed to parse grading JSON.")])
        500 (getCorsOrigin pu req)) ∧
    (jsTrim content ≠ "" → generateQuestion pj reply =
      .ok (.obj [("question", .str (jsTrim content))])) := by
  have hgr : gradeAnswer pj reply = .error "Failed to parse grading JSON." := by
    unfold gradeAnswer
    simp [hok, hcontent, hparse]
  have e := onRequestPost_grade_eq pj pu req env reply body s t ts q a hkey
    hbody ha hs hs0 ht ht0 hsub htop hq hqt hans hat
  rw [hgr] at e
  refine ⟨e, fun htrim => ?_⟩
  unfold generateQuestion
  simp [hok, hcontent, hparse, JValue.get, jsTruthyOpt, jsTruthy,
    bne_iff_ne, htrim]

/-- Witness for C3: a grade request whose provider content "not json" fails
to parse yields 500 "Failed to parse grading JSON.", while generate on the
same reply would fall back to the raw text. -/
theorem C3_grade_parse_failure_500_witness :
    onRequestPost (fun _ => none) (fun _ => none)
      ⟨none, some (.obj [("action", .str "grade"), ("subject", .str "Chemistry"),
                         ("topic", .str "Acids & Bases"), ("question", .str "Q"),
                         ("answer", .str "A")])⟩
      ⟨some "key"⟩ ⟨true, 200, some "not json"⟩ =
      .ok (jsonResponse (.obj [("error", .str "Failed to parse grading JSON.")])
        500 "https://artinamr.xyz") ∧
    generateQuestion (fun _ => none) ⟨true, 200, some "not json"⟩ =
      .ok (.obj [("question", .str "not json")]) := by
  have h := C3_grade_parse_failure_500 (fun _ => none) (fun _ => none)
    ⟨none, some (.obj [("action", .str "grade"), ("subject", .str "Chemistry"),
                       ("topic", .str "Acids & Bases"), ("question", .str "Q"),
                       ("answer", .str "A")])⟩
    ⟨some "key"⟩ ⟨true, 200, some "not json"⟩
    (.obj [("action", .str "grade"), ("subject", .str "Chemistry"),
           ("topic", .str "Acids & Bases"), ("question", .str "Q"),
           ("answer", .str "A")])
    "Chemistry" "Acids & Bases" ["Acids & Bases", "Atomic Structure"]
    (.str "Q") (.str "A") "not json"
    rfl rfl rfl rfl (by decide) rfl (by decide) rfl rfl rfl (by decide)
    rfl (by decide) rfl rfl rfl
  exact ⟨h.1, h.2 (by decide)⟩

/-- C10: in the generate path the question check is by truthiness, not field
presence: a provider content parsing to an object whose question is the empty
string yields 500 with error "No question returned from model.", and an empty
provider content (whose JSON.parse fails, so the fallback question is the
empty trimmed text) yields the same 500. -/
theorem C10_generate_empty_question_500 :
    onRequestPost
      (fun c => if c = "\x7b\"question\":\"\"\x7d"
                then some (.obj [("question", .str "")]) else none)
      (fun _ => none)
      ⟨none, some (.obj [("action", .str "generate"), ("subject", .str "Physics"),
                         ("topic", .str "Electricity")])⟩
      ⟨some "key"⟩ ⟨true, 200, some "\x7b\"question\":\"\"\x7d"⟩ =
      .ok (jsonResponse (.obj [("error", .str "No question returned from model.")])
        500 "https://artinamr.xyz") ∧
    onRequestPost (fun _ => none) (fun _ => none)
      ⟨none, some (.obj [("action", .str "generate"), ("subject", .str "Physics"),
                         ("topic", .str "Electricity")])⟩
      ⟨some "key"⟩ ⟨true, 200, some ""⟩ =
      .ok (jsonResponse (.obj [("error", .str "No question returned from model.")])
        500 "https://artinamr.xyz") :=
  ⟨rfl, rfl⟩

/-- C4 counterexample: the incompleteness check is not mere absence.  A grade
reply parsing to an object with grade_band present but equal to "" (and score
present) is rejected with 500 "Incomplete grading response.", where the claim
as stated promises 200; and a reply with feedback present but falsy (0) has
its feedback replaced by "", where the claim's defaulting is restricted to
absent fields. -/
theorem C4_counterexample_truthiness :
    onRequestPost
      (fun c => if c = "\x7b\"grade_band\":\"\",\"score\":5\x7d"
                then some (.obj [("grade_band", .str ""), ("score", .num 5)])
                else none)
      (fun _ => none)
      ⟨none, some (.obj [("action", .str "grade"), ("subject", .str "Biology"),
                         ("topic", .str "Genetics"), ("question", .str "Q"),
                         ("answer", .str "A")])⟩
      ⟨some "key"⟩
      ⟨true, 200, some "\x7b\"grade_band\":\"\",\"score\":5\x7d"⟩ =
      .ok (jsonResponse (.obj [("error", .str "Incomplete grading response.")])
        500 "https://artinamr.xyz") ∧
    onRequestPost
      (fun c => if c = "\x7b\"grade_band\":\"Merit\",\"score\":5,\"feedback\":0\x7d"
                then some (.obj [("grade_band", .str "Merit"), ("score", .num 5),
                                 ("feedback", .num 0)])
                else none)
      (fun _ => none)
      ⟨none, some (.obj [("action", .str "grade"), ("subject", .str "Biology"),
                         ("topic", .str "Genetics"), ("question", .str "Q"),
                         ("answer", .str "A")])⟩
      ⟨some "key"⟩
      ⟨true, 200,
       some "\x7b\"grade_band\":\"Merit\",\"score\":5,\"feedback\":0\x7d"⟩ =
      .ok (jsonResponse
        (.obj [("grade_band", .str "Merit"), ("score", .num 5),
               ("feedback", .str ""), ("improved_answer", .str "")]) 200
        "https://artinamr.xyz") :=
  ⟨rfl, rfl⟩

/-- C4 (amended): for every grade request whose provider reply parses as
JSON, if grade_band is absent or falsy, or score is absent, the response is
500 with error "Incomplete grading response."; otherwise the response is 200
with the four fields grade_band, score, feedback, improved_answer, where
feedback and improved_answer default to the empty string when absent or
falsy. -/
theorem C4_grade_parsed_response
    (pj : String → Option JValue) (pu : String → Option URLParts)
    (req : RequestT) (env : EnvT) (reply : ProviderReply)
    (body : JValue) (s t : String) (ts : List String) (q a : JValue)
    (content : String) (parsed : JValue)
    (hkey : jsTruthyStrOpt env.OPENAI_API_KEY = true)
    (hbody : req.body = some body)
    (ha : body.get "action" = some (.str "grade"))
    (hs : body.get "subject" = some (.str s)) (hs0 : s ≠ "")
    (ht : body.get "topic" = some (.str t)) (ht0 : t ≠ "")
    (hsub : ALLOWED.lookup s = some ts) (htop : ts.contains t = true)
    (hq : body.get "question" = some q) (hqt : jsTruthy q = true)
    (hans : body.get "answer" = some a) (hat : jsTruthy a = true)
    (hok : reply.ok = true)
    (hcontent : reply.content.getD "" = content)
    (hparse : pj content = some parsed) :
    ((jsTruthyOpt (parsed.get "grade_band") = false ∨ parsed.get "score" = none) →
      onRequestPost pj pu req env reply =
        .ok (jsonResponse (.obj [("error", .str "Incomplete grading response.")])
          500 (getCorsOrigin pu req))) ∧
    (∀ gb sc, parsed.get "grade_band" = some gb → jsTruthy gb = true →
      parsed.get "score" = some sc →
      onRequestPost pj pu req env reply =
        .ok (jsonResponse
          (.obj [("grade_band", gb), ("score", sc),
                 ("feedback", jsOrEmptyStr (parsed.get "feedback")),
                 ("improved_answer", jsOrEmptyStr (parsed.get "improved_answer"))])
          200 (getCorsOrigin pu req))) := by
  have e := onRequestPost_grade_eq pj pu req env reply body s t ts q a hkey
    hbody ha hs hs0 ht ht0 hsub htop hq hqt hans hat
  constructor
  · intro hcond
    have herr : gradeAnswer pj reply = .error "Incomplete grading response." := by
      unfold gradeAnswer
      rcases hcond with hgb | hsc
      · simp [hok, hcontent, hparse, hgb]
      · simp [hok, hcontent, hparse, hsc]
    rw [herr] at e
    exact e
  · intro gb sc hgb hgbt hsc
    have hokr : gradeAnswer pj reply =
        .ok (.obj [("grade_band", gb), ("score", sc),
                   ("feedback", jsOrEmptyStr (parsed.get "feedback")),
                   ("improved_answer", jsOrEmptyStr (parsed.get "improved_answer"))]) := by
      unfold gradeAnswer
      simp [hok, hcontent, hparse, hgb, hgbt, hsc, jsTruthyOpt]
    rw [hokr] at e
    exact e

/-- Witness for C4 at a parsed reply carrying grade_band "Merit", score 7 and
no feedback or improved_answer: the response is 200 with the defaults. -/
theorem C4_grade_parsed_response_witness :
    onRequestPost
      (fun c => if c = "\x7b\"grade_band\":\"Merit\",\"score\":7\x7d"
                then some (.obj [("grade_band", .str "Merit"), ("score", .num 7)])
                else none)
      (fun _ => none)
      ⟨none, some (.obj [("action", .str "grade"), ("subject", .str "Biology"),
                         ("topic", .str "Genetics"), ("question", .str "Q"),
                         ("answer", .str "A")])⟩
      ⟨some "key"⟩
      ⟨true, 200, some "\x7b\"grade_band\":\"Merit\",\"score\":7\x7d"⟩ =
      .ok (jsonResponse
        (.obj [("grade_band", .str "Merit"), ("score", .num 7),
               ("feedback", .str ""), ("improved_answer", .str "")]) 200
        "https://artinamr.xyz") := by
  have h := C4_grade_parsed_response
    (fun c => if c = "\x7b\"grade_band\":\"Merit\",\"score\":7\x7d"
              then some (.obj [("grade_band", .str "Merit"), ("score", .num 7)])
              else none)
    (fun _ => none)
    ⟨none, some (.obj [("action", .str "grade"), ("subject", .str "Biology"),
                       ("topic", .str "Genetics"), ("question", .str "Q"),
                       ("answer", .str "A")])⟩
    ⟨some "key"⟩
    ⟨true, 200, some "\x7b\"grade_band\":\"Merit\",\"score\":7\x7d"⟩
    (.obj [("action", .str "grade"), ("subject", .str "Biology"),
           ("topic", .str "Genetics"), ("question", .str "Q"),
           ("answer", .str "A")])
    "Biology" "Genetics" ["Genetics", "Human Body (3 Main Systems)"]
    (.str "Q") (.str "A")
    "\x7b\"grade_band\":\"Merit\",\"score\":7\x7d"
    (.obj [("grade_band", .str "Merit"), ("score", .num 7)])
    rfl rfl rfl rfl (by decide) rfl (by decide) rfl rfl rfl (by decide)
    rfl (by decide) rfl rfl rfl
  exact h.2 (.str "Merit") (.num 7) rfl (by decide) rfl

/-- C9: the grade path tests score presence with typeof-undefined but
grade_band by truthiness: a reply parsing to grade_band "Merit" with score 0
is accepted (200, score 0), while grade_band "" with score 5 is rejected with
500 "Incomplete grading response.". -/
theorem C9_grade_band_truthiness_vs_score_presence :
    onRequestPost
      (fun c => if c = "\x7b\"grade_band\":\"Merit\",\"score\":0\x7d"
                then some (.obj [("grade_band", .str "Merit"), ("score", .num 0)])
                else none)
      (fun _ => none)
      ⟨none, some (.obj [("action", .str "grade"), ("subject", .str "Physics"),
                         ("topic", .str "Electricity"), ("question", .str "Q"),
                         ("answer", .str "A")])⟩
      ⟨some "key"⟩
      ⟨true, 200, some "\x7b\"grade_band\":\"Merit\",\"score\":0\x7d"⟩ =
      .ok (jsonResponse
        (.obj [("grade_band", .str "Merit"), ("score", .num 0),
               ("feedback", .str ""), ("improved_answer", .str "")]) 200
        "https://artinamr.xyz") ∧
    onRequestPost
      (fun c => if c = "\x7b\"grade_band\":\"\",\"score\":5\x7d"
                then some (.obj [("grade_band", .str ""), ("score", .num 5)])
                else none)
      (fun _ => none)
      ⟨none, some (.obj [("action", .str "grade"), ("subject", .str "Physics"),
                         ("topic", .str "Electricity"), ("question", .str "Q"),
                         ("answer", .str "A")])⟩
      ⟨some "key"⟩
      ⟨true, 200, some "\x7b\"grade_band\":\"\",\"score\":5\x7d"⟩ =
      .ok (jsonResponse (.obj [("error", .str "Incomplete grading response.")])
        500 "https://artinamr.xyz") :=
  ⟨rfl, rfl⟩

/-- C5: for every request, the Access-Control-Allow-Origin value is computed
from the Origin header: absent or unparseable origins fall back to the
canonical https://artinamr.xyz; a parseable origin reduced to
scheme://host[:port] is echoed back exactly when it is in the fixed allow-set
and replaced by the canonical origin otherwise; the OPTIONS preflight
response and every response the POST handler produces carry this value. -/
theorem C5_cors_origin_resolution
    (pj : String → Option JValue) (pu : String → Option URLParts)
    (req : RequestT) (env : EnvT) (reply : ProviderReply)
    (hURL : pu "" = none) :
    (req.originHeader = none → getCorsOrigin pu req = "https://artinamr.xyz") ∧
    (∀ o, req.originHeader = some o → pu o = none →
      getCorsOrigin pu req = "https://artinamr.xyz") ∧
    (∀ o u, req.originHeader = some o → pu o = some u →
      getCorsOrigin pu req =
        (if corsAllowedOrigins.contains (urlBase u) then urlBase u
         else "https://artinamr.xyz")) ∧
    (onRequestOptions pu req).allowOrigin = some (getCorsOrigin pu req) ∧
    (∀ r, onRequestPost pj pu req env reply = .ok r →
      r.allowOrigin = some (getCorsOrigin pu req)) := by
  refine ⟨?_, ?_, ?_, rfl, onRequestPost_allowOrigin pj pu req env reply⟩
  · intro hnone
    unfold getCorsOrigin
    simp [hnone, hURL]
  · intro o ho hpo
    unfold getCorsOrigin
    simp [ho, hpo]
  · intro o u ho hpu
    unfold getCorsOrigin
    simp [ho, hpu]

/-- Witness for C5: with a URL-parse oracle recognising the development
origin http://localhost:3000 and rejecting everything else, that origin is
echoed back by the preflight handler, while an unknown origin
http://evil.example and an absent header both resolve to the canonical
origin. -/
theorem C5_cors_origin_resolution_witness :
    getCorsOrigin
      (fun s => if s = "http://localhost:3000"
                then some ⟨"http:", "localhost", "3000"⟩
                else if s = "http://evil.example"
                then some ⟨"http:", "evil.example", ""⟩
                else none)
      ⟨some "http://localhost:3000", none⟩ = "http://localhost:3000" ∧
    (onRequestOptions
      (fun s => if s = "http://localhost:3000"
                then some ⟨"http:", "localhost", "3000"⟩
                else if s = "http://evil.example"
                then some ⟨"http:", "evil.example", ""⟩
                else none)
      ⟨some "http://localhost:3000", none⟩).allowOrigin =
      some "http://localhost:3000" ∧
    getCorsOrigin
      (fun s => if s = "http://localhost:3000"
                then some ⟨"http:", "localhost", "3000"⟩
                else if s = "http://evil.example"
                then some ⟨"http:", "evil.example", ""⟩
                else none)
      ⟨some "http://evil.example", none⟩ = "https://artinamr.xyz" ∧
    getCorsOrigin
      (fun s => if s = "http://localhost:3000"
                then some ⟨"http:", "localhost", "3000"⟩
                else if s = "http://evil.example"
                then some ⟨"http:", "evil.example", ""⟩
                else none)
      ⟨none, none⟩ = "https://artinamr.xyz" := by
  have h1 := C5_cors_origin_resolution (fun _ => none)
    (fun s => if s = "http://localhost:3000"
              then some ⟨"http:", "localhost", "3000"⟩
              else if s = "http://evil.example"
              then some ⟨"http:", "evil.example", ""⟩
              else none)
    ⟨some "http://localhost:3000", none⟩ ⟨none⟩ ⟨true, 200, none⟩ rfl
  have h2 := C5_cors_origin_resolution (fun _ => none)
    (fun s => if s = "http://localhost:3000"
              then some ⟨"http:", "localhost", "3000"⟩
              else if s = "http://evil.example"
              then some ⟨"http:", "evil.example", ""⟩
              else none)
    ⟨some "http://evil.example", none⟩ ⟨none⟩ ⟨true, 200, none⟩ rfl
  have h3 := C5_cors_origin_resolution (fun _ => none)
    (fun s => if s = "http://localhost:3000"
              then some ⟨"http:", "localhost", "3000"⟩
              else if s = "http://evil.example"
              then some ⟨"http:", "evil.example", ""⟩
              else none)
    ⟨none, none⟩ ⟨none⟩ ⟨true, 200, none⟩ rfl
  have e1 := h1.2.2.1 "http://localhost:3000" ⟨"http:", "localhost", "3000"⟩ rfl rfl
  have e2 := h2.2.2.1 "http://evil.example" ⟨"http:", "evil.example", ""⟩ rfl rfl
  have e3 := h3.1 rfl
  refine ⟨?_, ?_, ?_, e3⟩
  · rw [e1]; rfl
  · rw [h1.2.2.2.1, e1]; rfl
  · rw [e2]; rfl

/-- C6: for every POST, if the provider credential is absent from the
environment the response is 500 with the "Server not configured" error; the
request is universally quantified, so this holds for any body, including a
malformed one (no 400 is produced first). -/
theorem C6_missing_credential_500
    (pj : String → Option JValue) (pu : String → Option URLParts)
    (req : RequestT) (reply : ProviderReply) (env : EnvT)
    (hkey : env.OPENAI_API_KEY = none) :
    onRequestPost pj pu req env reply =
      .ok (jsonResponse
        (.obj [("error", .str "Server not configured: OPENAI_API_KEY missing.")])
        500 (getCorsOrigin pu req)) := by
  unfold onRequestPost
  simp [hkey, jsTruthyStrOpt]

/-- Witness for C6 at a request whose body failed to parse: the missing
credential still dominates and yields the 500 configuration error. -/
theorem C6_missing_credential_500_witness :
    onRequestPost (fun _ => none) (fun _ => none) ⟨none, none⟩ ⟨none⟩
      ⟨true, 200, none⟩ =
      .ok (jsonResponse
        (.obj [("error", .str "Server not configured: OPENAI_API_KEY missing.")])
        500 "https://artinamr.xyz") :=
  C6_missing_credential_500 (fun _ => none) (fun _ => none) ⟨none, none⟩
    ⟨true, 200, none⟩ ⟨none⟩ rfl

/-- C7: for every POST with action "grade" and a valid subject/topic, if the
question field or the answer field is missing from the body the response is
400 with error "Missing question or answer for grading.", and no provider
call is made (the response does not depend on the provider reply). -/
theorem C7_grade_missing_fields_400
    (pj : String → Option JValue) (pu : String → Option URLParts)
    (req : RequestT) (env : EnvT) (reply reply' : ProviderReply)
    (body : JValue) (s t : String) (ts : List String)
    (hkey : jsTruthyStrOpt env.OPENAI_API_KEY = true)
    (hbody : req.body = some body)
    (ha : body.get "action" = some (.str "grade"))
    (hs : body.get "subject" = some (.str s)) (hs0 : s ≠ "")
    (ht : body.get "topic" = some (.str t)) (ht0 : t ≠ "")
    (hsub : ALLOWED.lookup s = some ts) (htop : ts.contains t = true)
    (hmiss : body.get "question" = none ∨ body.get "answer" = none) :
    onRequestPost pj pu req env reply =
      .ok (jsonResponse
        (.obj [("error", .str "Missing question or answer for grading.")]) 400
        (getCorsOrigin pu req)) ∧
    onRequestPost pj pu req env reply = onRequestPost pj pu req env reply' := by
  have hb : jsTruthy body = true := jsTruthy_of_get ha
  have hga : ("grade" : String) ≠ "" := by decide
  have hmem : t ∈ ts := by simpa using htop
  have key : ∀ r : ProviderReply, onRequestPost pj pu req env r =
      .ok (jsonResponse
        (.obj [("error", .str "Missing question or answer for grading.")]) 400
        (getCorsOrigin pu req)) := by
    intro r
    unfold onRequestPost
    rcases hmiss with hm | hm <;>
      simp +decide [hkey, hbody, hb, ha, hs, ht,
        jsTruthyOpt_some_str s hs0, jsTruthyOpt_some_str t ht0,
        jsTruthyOpt_some_str "grade" hga,
        Option.getD_some, jsToPropKey_str, hsub, hmem, includesJS,
        jsStrictEqStr, hm, jsTruthyOpt_none]
  exact ⟨key reply, (key reply).trans (key reply').symm⟩

/-- Witness for C7: a grade request with valid subject/topic and question but
no answer yields 400, identically for two distinct provider replies. -/
theorem C7_grade_missing_fields_400_witness :
    onRequestPost (fun _ => none) (fun _ => none)
      ⟨none, some (.obj [("action", .str "grade"), ("subject", .str "Physics"),
                         ("topic", .str "Forces & Motion"),
                         ("question", .str "Q")])⟩
      ⟨some "key"⟩ ⟨true, 200, some "x"⟩ =
      .ok (jsonResponse
        (.obj [("error", .str "Missing question or answer for grading.")]) 400
        "https://artinamr.xyz") ∧
    onRequestPost (fun _ => none) (fun _ => none)
      ⟨none, some (.obj [("action", .str "grade"), ("subject", .str "Physics"),
                         ("topic", .str "Forces & Motion"),
                         ("question", .str "Q")])⟩
      ⟨some "key"⟩ ⟨true, 200, some "x"⟩ =
    onRequestPost (fun _ => none) (fun _ => none)
      ⟨none, some (.obj [("action", .str "grade"), ("subject", .str "Physics"),
                         ("topic", .str "Forces & Motion"),
                         ("question", .str "Q")])⟩
      ⟨some "key"⟩ ⟨false, 502, none⟩ :=
  C7_grade_missing_fields_400 (fun _ => none) (fun _ => none)
    ⟨none, some (.obj [("action", .str "grade"), ("subject", .str "Physics"),
                       ("topic", .str "Forces & Motion"),
                       ("question", .str "Q")])⟩
    ⟨some "key"⟩ ⟨true, 200, some "x"⟩ ⟨false, 502, none⟩
    (.obj [("action", .str "grade"), ("subject", .str "Physics"),
           ("topic", .str "Forces & Motion"), ("question", .str "Q")])
    "Physics" "Forces & Motion" ["Electricity", "Forces & Motion"]
    rfl rfl rfl rfl (by decide) rfl (by decide) rfl rfl (Or.inr rfl)

/-- C8: for every POST that reaches the action dispatch with a valid
subject/topic, an exception thrown during dispatch is caught and converted to
a 500 response whose JSON body carries the exception's message; a provider
non-success HTTP status surfaces as the message "OpenAI error (status)" in
both dispatched operations, so no dispatch fault propagates past the
handler's boundary. -/
theorem C8_dispatch_exception_500
    (pj : String → Option JValue) (pu : String → Option URLParts)
    (req : RequestT) (env : EnvT) (reply : ProviderReply)
    (body : JValue) (s t : String) (ts : List String)
    (hkey : jsTruthyStrOpt env.OPENAI_API_KEY = true)
    (hbody : req.body = some body)
    (hs : body.get "subject" = some (.str s)) (hs0 : s ≠ "")
    (ht : body.get "topic" = some (.str t)) (ht0 : t ≠ "")
    (hsub : ALLOWED.lookup s = some ts) (htop : ts.contains t = true) :
    ((body.get "action" = some (.str "generate") →
      (∀ msg, generateQuestion pj reply = .error msg → msg ≠ "" →
        onRequestPost pj pu req env reply =
          .ok (jsonResponse (.obj [("error", .str msg)]) 500
            (getCorsOrigin pu req))) ∧
      (reply.ok = false → generateQuestion pj reply =
        .error ("OpenAI error (" ++ toString reply.status ++ ")"))) ∧
     (body.get "action" = some (.str "grade") →
      ∀ q a, body.get "question" = some q → jsTruthy q = true →
        body.get "answer" = some a → jsTruthy a = true →
      (∀ msg, gradeAnswer pj reply = .error msg → msg ≠ "" →
        onRequestPost pj pu req env reply =
          .ok (jsonResponse (.obj [("error", .str msg)]) 500
            (getCorsOrigin pu req))) ∧
      (reply.ok = false → gradeAnswer pj reply =
        .error ("OpenAI error (" ++ toString reply.status ++ ")")))) := by
  constructor
  · intro ha
    constructor
    · intro msg hmsg hne
      have e := onRequestPost_generate_eq pj pu req env reply body s t ts hkey
        hbody ha hs hs0 ht ht0 hsub htop
      rw [hmsg] at e
      rw [e]
      simp [catchMessage, hne]
    · intro hok
      unfold generateQuestion
      simp [hok]
  · intro ha q a hq hqt hans hat
    constructor
    · intro msg hmsg hne
      have e := onRequestPost_grade_eq pj pu req env reply body s t ts q a hkey
        hbody ha hs hs0 ht ht0 hsub htop hq hqt hans hat
      rw [hmsg] at e
      rw [e]
      simp [catchMessage, hne]
    · intro hok
      unfold gradeAnswer
      simp [hok]

/-- Witness for C8: a provider reply with ok = false and HTTP status 503
makes a valid generate request answer 500 with error "OpenAI error (503)". -/
theorem C8_dispatch_exception_500_witness :
    onRequestPost (fun _ => none) (fun _ => none)
      ⟨none, some (.obj [("action", .str "generate"), ("subject", .str "Biology"),
                         ("topic", .str "Genetics")])⟩
      ⟨some "key"⟩ ⟨false, 503, none⟩ =
      .ok (jsonResponse (.obj [("error", .str "OpenAI error (503)")]) 500
        "https://artinamr.xyz") := by
  have h := C8_dispatch_exception_500 (fun _ => none) (fun _ => none)
    ⟨none, some (.obj [("action", .str "generate"), ("subject", .str "Biology"),
                       ("topic", .str "Genetics")])⟩
    ⟨some "key"⟩ ⟨false, 503, none⟩
    (.obj [("action", .str "generate"), ("subject", .str "Biology"),
           ("topic", .str "Genetics")])
    "Biology" "Genetics" ["Genetics", "Human Body (3 Main Systems)"]
    rfl rfl rfl (by decide) rfl (by decide) rfl rfl
  have herr := (h.1 rfl).2 rfl
  exact (h.1 rfl).1 "OpenAI error (503)" herr (by decide)

end Revhub
